import Mathlib

/-!
Shallow embedding of the Tello control-protocol core
(`src/advanced/src/tello.rs`, with the twin copy in `src/advanced/src/main.rs`).

A received or constructed datagram is modelled as a `List Nat` of its bytes
(every entry `< 256`).  The Rust code reinterprets the raw byte buffer as the
`#[repr(packed(1))]` struct `TelloGram` on a little-endian target, so a packed
`u16` field at offset `k` is embedded as `b[k] + 256 * b[k+1]`, and a `u16`
store becomes the two bytes `v % 256` and `v / 256`.  Explicit bit operations
in the source (`>>`, `<<`, `&`, `|`, `^`) are kept as the corresponding `Nat`
bit operations; `as u8` / `as u16` casts become `% 256` / `% 65536`.
-/

/-- One bit-step of the modelled 8-bit checksum (reflected polynomial form).

Modelled from the spec: the file `crc.rs` is not under `src/` (only `mod crc;`
and the call sites `crc::calculate_crc8` / `crc::calculate_crc16` are).  The
spec, section 4.1, fixes the checksum engine only as a pair of deterministic,
stateless, table-driven polynomial checksums (8-bit and 16-bit, different
polynomials); we model them as standard bitwise polynomial CRCs.  Every
theorem below whose statement does not pin concrete checksum bytes holds for
any deterministic function in their place. -/
def crc8_bit (c : Nat) : Nat :=
  if c % 2 = 1 then (c / 2) ^^^ 0x8c else c / 2

/-- Modelled from the spec: one byte of the 8-bit checksum (eight bit-steps,
state kept in the 8-bit range). -/
def crc8_update (crc b : Nat) : Nat :=
  crc8_bit (crc8_bit (crc8_bit (crc8_bit (crc8_bit (crc8_bit (crc8_bit
    (crc8_bit ((crc ^^^ b) % 256))))))))

/-- Modelled from the spec: `crc::calculate_crc8`, a deterministic 8-bit
checksum over an arbitrary byte slice. -/
def calculate_crc8 (bytes : List Nat) : Nat :=
  bytes.foldl crc8_update 0

/-- Modelled from the spec: one bit-step of the 16-bit checksum. -/
def crc16_bit (c : Nat) : Nat :=
  if c % 2 = 1 then (c / 2) ^^^ 0xa001 else c / 2

/-- Modelled from the spec: one byte of the 16-bit checksum (eight bit-steps,
state kept in the 16-bit range). -/
def crc16_update (crc b : Nat) : Nat :=
  crc16_bit (crc16_bit (crc16_bit (crc16_bit (crc16_bit (crc16_bit (crc16_bit
    (crc16_bit ((crc ^^^ b) % 65536))))))))

/-- Modelled from the spec: `crc::calculate_crc16`, a deterministic 16-bit
checksum over an arbitrary byte slice (a different polynomial than the 8-bit
one). -/
def calculate_crc16 (bytes : List Nat) : Nat :=
  bytes.foldl crc16_update 0

/-- `TelloGram::GRAM_SIZE` (tello.rs line 61). -/
def TelloGram.GRAM_SIZE : Nat := 11

/-- `TelloGram::header` (tello.rs line 63): the byte at offset 0. -/
def TelloGram.header (b : List Nat) : Nat := b.getD 0 0

/-- `TelloGram::size` (tello.rs line 67): the packed little-endian `u16`
`m_size` at offsets 1..2, shifted right by 3. -/
def TelloGram.size (b : List Nat) : Nat :=
  (b.getD 1 0 + 256 * b.getD 2 0) >>> 3

/-- `TelloGram::crc8` (tello.rs line 71): the stored checksum byte at
offset 3. -/
def TelloGram.crc8 (b : List Nat) : Nat := b.getD 3 0

/-- `TelloGram::packet_type` (tello.rs line 83): bits 3..5 of the
discriminator byte at offset 4. -/
def TelloGram.packet_type (b : List Nat) : Nat :=
  (b.getD 4 0 >>> 3) &&& 0x7

/-- `TelloGram::packet_subtype` (tello.rs line 87): bits 0..2 of the
discriminator byte at offset 4. -/
def TelloGram.packet_subtype (b : List Nat) : Nat :=
  b.getD 4 0 &&& 0x7

/-- `TelloGram::id` (tello.rs line 91): the packed little-endian `u16` at
offsets 5..6. -/
def TelloGram.id (b : List Nat) : Nat :=
  b.getD 5 0 + 256 * b.getD 6 0

/-- `TelloGram::sequence` (tello.rs line 95): the packed little-endian `u16`
at offsets 7..8. -/
def TelloGram.sequence (b : List Nat) : Nat :=
  b.getD 7 0 + 256 * b.getD 8 0

/-- `TelloGram::payload` (tello.rs lines 99..105): `size() - GRAM_SIZE` bytes
read from offset 9.  The source reads them with `slice::from_raw_parts` from
raw memory; the embedding truncates at the end of the modelled buffer (see
`TelloGram.payload_read_len` for the raw read extent). -/
def TelloGram.payload (b : List Nat) : List Nat :=
  (b.drop 9).take (TelloGram.size b - TelloGram.GRAM_SIZE)

/-- The number of bytes `TelloGram::payload`'s `slice::from_raw_parts`
(tello.rs line 103) reads from raw memory starting at offset 9; in Rust this
is the `usize` difference `size() - GRAM_SIZE`, which also underflows when
`size() < 11`. -/
def TelloGram.payload_read_len (b : List Nat) : Nat :=
  TelloGram.size b - TelloGram.GRAM_SIZE

/-- `TelloGram::crc16` (tello.rs lines 107..116): the stored trailing 16-bit
checksum, high byte taken from offset `size() - 1`, low byte from
`size() - 2`. -/
def TelloGram.crc16 (b : List Nat) : Nat :=
  (b.getD (TelloGram.size b - 1) 0 <<< 8) ||| b.getD (TelloGram.size b - 2) 0

/-- `TelloGram::is_valid` (tello.rs lines 118..129): recompute the 8-bit
checksum over bytes 0..2 and the 16-bit checksum over bytes 0..size-2 and
compare them with the stored fields. -/
def TelloGram.is_valid (b : List Nat) : Bool :=
  (calculate_crc8 (b.take 3) == TelloGram.crc8 b) &&
    (calculate_crc16 (b.take (TelloGram.size b - 2)) == TelloGram.crc16 b)

/-- The number of bytes `is_valid`'s second `slice::from_raw_parts`
(tello.rs line 125) reads from raw memory starting at the gram base: the
`usize` value `size() - 2`. -/
def TelloGram.is_valid_crc16_read_len (b : List Nat) : Nat :=
  TelloGram.size b - 2

/-- Bytes `0..packet_size-2` of the buffer being built by
`TelloGram::construct_package` (tello.rs lines 134..147), i.e. everything
before the trailing 16-bit checksum is written.  The zeroed buffer is written
through the packed struct on a little-endian target: header `0xcc`, the size
field `(packet_size << 3) as u16` stored low byte then high byte, the 8-bit
checksum of bytes 0..2 (line 138, computed while only header and size are
set — exactly the bytes it covers), the discriminator
`0x40 | ((packet_type << 3) & 0x38)` (subtype left 0), then `id` and
`sequence` little-endian, then the payload copied from offset 9. -/
def TelloGram.body_bytes (packet_type command seq : Nat)
    (payload : List Nat) : List Nat :=
  let packet_size := TelloGram.GRAM_SIZE + payload.length
  let sf := (packet_size <<< 3) % 65536
  let cmd := command % 65536
  let sq := seq % 65536
  [0xcc, sf % 256, sf / 256,
   calculate_crc8 [0xcc, sf % 256, sf / 256],
   0x40 ||| (((packet_type % 256) <<< 3) % 256 &&& 0x38),
   cmd % 256, cmd / 256, sq % 256, sq / 256] ++ payload

/-- `TelloGram::construct_package` (tello.rs lines 131..155): the body bytes
followed by the 16-bit checksum of `buffer[..packet_size - 2]`, appended low
byte first, then high byte (the `to_be`-transmute of lines 150..152 on a
little-endian target). -/
def TelloGram.construct_package (packet_type command seq : Nat)
    (payload : List Nat) : List Nat :=
  TelloGram.body_bytes packet_type command seq payload ++
    [calculate_crc16 (TelloGram.body_bytes packet_type command seq payload) % 256,
     calculate_crc16 (TelloGram.body_bytes packet_type command seq payload) / 256 % 256]

/-- `FlightData` (tello.rs lines 36..41). -/
structure FlightData where
  height : Nat
  battery_percentage : Nat
  camera_state : Nat
deriving DecidableEq

/-- `FlightData::from` (tello.rs lines 43..53).  The source runs
`assert!(bytes.len() == 24)` and then reads bytes 0, 1, 12 and 20; the
assertion failure (a Rust panic) is modelled as `none`. -/
def FlightData.fromBytes (bytes : List Nat) : Option FlightData :=
  if bytes.length = 24 then
    some { height := bytes.getD 0 0 ||| (bytes.getD 1 0 <<< 8),
           battery_percentage := bytes.getD 12 0,
           camera_state := bytes.getD 20 0 }
  else none

/-- What one iteration of the command receive loop does with the receive
buffer. -/
inductive RecvAction where
  | connAck
  | discardInvalid
  | dispatch (id : Nat)
deriving DecidableEq

/-- The bytes of the ASCII string `"conn_ack:"`. -/
def conn_ack_bytes : List Nat :=
  [0x63, 0x6f, 0x6e, 0x6e, 0x5f, 0x61, 0x63, 0x6b, 0x3a]

/-- The body of `cmd_listen_thread` (tello.rs lines 206..236) for one received
datagram: `buffer` is the entire 4096-byte receive array (whose bytes past the
newly received datagram keep their previous, stale contents) and `numBytes` is
the received length.  The source tests `buffer.starts_with("conn_ack:")` on
the whole array, otherwise casts the array to `TelloGram`, discards it when
`is_valid()` fails, and otherwise dispatches on `id()`.  No check against
`numBytes` is performed anywhere on this path (it is only used for logging),
which is why the parameter is unused here. -/
def cmd_listen_step (buffer : List Nat) (_numBytes : Nat) : RecvAction :=
  if conn_ack_bytes.isPrefixOf buffer then .connAck
  else if !(TelloGram.is_valid buffer) then .discardInvalid
  else .dispatch (TelloGram.id buffer)

/-- The gram sent on iteration `n` of the keepalive loop
(`video_package_ping_thread`, tello.rs lines 335..342).  The loop body is
iteration-independent: it always sends
`TelloGram::construct_package(4, 0x25, 0, &[])`. -/
def video_ping_gram (_n : Nat) : List Nat :=
  TelloGram.construct_package 4 0x25 0 []

set_option maxRecDepth 100000

/-! ## General-purpose byte lemmas -/

/-- Recombining a high byte shifted left by 8 with a low byte below 256 is
the little-endian value `lo + 256 * hi`. -/
theorem byte_lor (hi lo : Nat) (h : lo < 256) : (hi <<< 8) ||| lo = lo + 256 * hi := by
  rw [Nat.shiftLeft_eq, Nat.mul_comm]
  have h2 := Nat.mul_add_lt_is_or (i := 8) (b := lo) (by simpa using h) hi
  rw [← h2]; ring

/-- Every `getD` read (default 0) from a list of bytes is below 256. -/
theorem getD_lt_256 (b : List Nat) (h : ∀ x ∈ b, x < 256) (i : Nat) :
    b.getD i 0 < 256 := by
  induction b generalizing i with
  | nil => simp [List.getD]
  | cons a t ih =>
    cases i with
    | zero => simpa using h a (by simp)
    | succ j => simpa using ih (fun x hx => h x (by simp [hx])) j

/-- One bit-step of the 16-bit checksum stays in the 16-bit range. -/
theorem crc16_bit_lt {c : Nat} (h : c < 65536) : crc16_bit c < 65536 := by
  unfold crc16_bit
  split
  · have h1 : c / 2 < 2 ^ 16 := by omega
    have h2 : 0xa001 < 2 ^ 16 := by norm_num
    have := Nat.xor_lt_two_pow h1 h2
    simpa using this
  · omega

/-- One byte-step of the 16-bit checksum stays in the 16-bit range. -/
theorem crc16_update_lt (c b : Nat) : crc16_update c b < 65536 := by
  unfold crc16_update
  have h0 : (c ^^^ b) % 65536 < 65536 := Nat.mod_lt _ (by norm_num)
  exact crc16_bit_lt (crc16_bit_lt (crc16_bit_lt (crc16_bit_lt (crc16_bit_lt
    (crc16_bit_lt (crc16_bit_lt (crc16_bit_lt h0)))))))

/-- Folding the 16-bit checksum keeps its 16-bit invariant. -/
theorem foldl_crc16_update_lt (l : List Nat) : ∀ c : Nat, c < 65536 →
    List.foldl crc16_update c l < 65536 := by
  induction l with
  | nil => intro c h; simpa using h
  | cons x xs ih =>
    intro c _
    simpa using ih (crc16_update c x) (crc16_update_lt c x)

/-- The modelled 16-bit checksum is a `u16` value. -/
theorem calculate_crc16_lt (l : List Nat) : calculate_crc16 l < 65536 :=
  foldl_crc16_update_lt l 0 (by norm_num)

/-! ## Structure of `construct_package` -/

/-- The body (header fields plus payload) of a constructed gram holds
`9 + payload.len()` bytes. -/
theorem body_bytes_length (pt c q : Nat) (p : List Nat) :
    (TelloGram.body_bytes pt c q p).length = 9 + p.length := by
  simp [TelloGram.body_bytes]
  omega

/-- `construct_package` produces a buffer of `GRAM_SIZE + payload.len()`
bytes. -/
theorem construct_length (pt c q : Nat) (p : List Nat) :
    (TelloGram.construct_package pt c q p).length = 11 + p.length := by
  simp [TelloGram.construct_package, TelloGram.body_bytes]
  omega

/-- The decoded size of a constructed gram: the `u16` store truncates
`(11 + len) << 3` to sixteen bits, so reading it back and shifting right by 3
gives `(11 + len) % 8192`. -/
theorem construct_size (pt c q : Nat) (p : List Nat) :
    TelloGram.size (TelloGram.construct_package pt c q p) = (11 + p.length) % 8192 := by
  unfold TelloGram.size
  have h1 : (TelloGram.construct_package pt c q p).getD 1 0 =
      ((11 + p.length) <<< 3) % 65536 % 256 := by
    simp [TelloGram.construct_package, TelloGram.body_bytes, TelloGram.GRAM_SIZE]
  have h2 : (TelloGram.construct_package pt c q p).getD 2 0 =
      ((11 + p.length) <<< 3) % 65536 / 256 := by
    simp [TelloGram.construct_package, TelloGram.body_bytes, TelloGram.GRAM_SIZE]
  rw [h1, h2, Nat.shiftRight_eq_div_pow, Nat.shiftLeft_eq]
  show (_ : Nat) / 2 ^ 3 = _
  omega

/-- Reading the type bits back out of a constructed discriminator byte
recovers the kind, for kinds in the 3-bit range. -/
theorem disc_packet_type (k : Nat) (hk : k ≤ 7) :
    (((0x40 ||| (((k % 256) <<< 3) % 256 &&& 0x38)) >>> 3) &&& 0x7) = k := by
  interval_cases k <;> rfl

/-- `packet_type` of a constructed gram recovers the kind argument. -/
theorem construct_packet_type (pt c q : Nat) (p : List Nat) (h : pt ≤ 7) :
    TelloGram.packet_type (TelloGram.construct_package pt c q p) = pt := by
  unfold TelloGram.packet_type
  have h4 : (TelloGram.construct_package pt c q p).getD 4 0 =
      0x40 ||| (((pt % 256) <<< 3) % 256 &&& 0x38) := by
    simp [TelloGram.construct_package, TelloGram.body_bytes]
  rw [h4]
  exact disc_packet_type pt h

/-- `id` of a constructed gram recovers the command argument. -/
theorem construct_id (pt c q : Nat) (p : List Nat) (h : c < 65536) :
    TelloGram.id (TelloGram.construct_package pt c q p) = c := by
  unfold TelloGram.id
  have h5 : (TelloGram.construct_package pt c q p).getD 5 0 = c % 65536 % 256 := by
    simp [TelloGram.construct_package, TelloGram.body_bytes]
  have h6 : (TelloGram.construct_package pt c q p).getD 6 0 = c % 65536 / 256 := by
    simp [TelloGram.construct_package, TelloGram.body_bytes]
  rw [h5, h6]
  omega

/-- `sequence` of a constructed gram recovers the sequence argument. -/
theorem construct_sequence (pt c q : Nat) (p : List Nat) (h : q < 65536) :
    TelloGram.sequence (TelloGram.construct_package pt c q p) = q := by
  unfold TelloGram.sequence
  have h7 : (TelloGram.construct_package pt c q p).getD 7 0 = q % 65536 % 256 := by
    simp [TelloGram.construct_package, TelloGram.body_bytes]
  have h8 : (TelloGram.construct_package pt c q p).getD 8 0 = q % 65536 / 256 := by
    simp [TelloGram.construct_package, TelloGram.body_bytes]
  rw [h7, h8]
  omega

/-- `payload` of a constructed gram recovers the payload, as long as the
size field does not wrap (`11 + len ≤ 8191`). -/
theorem construct_payload (pt c q : Nat) (p : List Nat) (h : p.length ≤ 8180) :
    TelloGram.payload (TelloGram.construct_package pt c q p) = p := by
  unfold TelloGram.payload TelloGram.GRAM_SIZE
  rw [construct_size pt c q p]
  have hs : (11 + p.length) % 8192 - 11 = p.length := by omega
  rw [hs]
  simp only [TelloGram.construct_package, TelloGram.body_bytes, TelloGram.GRAM_SIZE]
  simp only [List.cons_append, List.nil_append, List.drop_succ_cons, List.drop_zero]
  rw [List.take_left' rfl]

/-- The first `packet_size - 2` bytes of a constructed gram are its body. -/
theorem construct_take_body (pt c q : Nat) (p : List Nat) :
    (TelloGram.construct_package pt c q p).take (9 + p.length) =
      TelloGram.body_bytes pt c q p := by
  unfold TelloGram.construct_package
  exact List.take_left' (body_bytes_length pt c q p)

/-- The byte at offset `packet_size - 2` of a constructed gram is the low
byte of the 16-bit checksum of the body. -/
theorem construct_getD_crc_lo (pt c q : Nat) (p : List Nat) :
    (TelloGram.construct_package pt c q p).getD (9 + p.length) 0 =
      calculate_crc16 (TelloGram.body_bytes pt c q p) % 256 := by
  unfold TelloGram.construct_package
  rw [List.getD_append_right _ _ _ _ (by rw [body_bytes_length])]
  rw [body_bytes_length]
  simp

/-- The byte at offset `packet_size - 1` of a constructed gram is the high
byte of the 16-bit checksum of the body. -/
theorem construct_getD_crc_hi (pt c q : Nat) (p : List Nat) :
    (TelloGram.construct_package pt c q p).getD (10 + p.length) 0 =
      calculate_crc16 (TelloGram.body_bytes pt c q p) / 256 % 256 := by
  unfold TelloGram.construct_package
  rw [List.getD_append_right _ _ _ _ (by rw [body_bytes_length]; omega)]
  rw [body_bytes_length]
  have : 10 + p.length - (9 + p.length) = 1 := by omega
  rw [this]
  simp

/-! ## The claims -/

/-- C1: Round-trip.  For every kind in `[0,7]`, every 16-bit id and sequence,
and every byte payload of length at most 1450, decoding the buffer produced
by `construct_package` yields back exactly the same kind (via `packet_type`),
id, sequence and payload bytes. -/
theorem c1_encode_decode_roundtrip (kind cmd seq : Nat) (payload : List Nat)
    (hkind : kind ≤ 7) (hcmd : cmd < 65536) (hseq : seq < 65536)
    (hlen : payload.length ≤ 1450) (hbytes : ∀ x ∈ payload, x < 256) :
    TelloGram.packet_type (TelloGram.construct_package kind cmd seq payload) = kind ∧
    TelloGram.id (TelloGram.construct_package kind cmd seq payload) = cmd ∧
    TelloGram.sequence (TelloGram.construct_package kind cmd seq payload) = seq ∧
    TelloGram.payload (TelloGram.construct_package kind cmd seq payload) = payload :=
  ⟨construct_packet_type kind cmd seq payload hkind,
   construct_id kind cmd seq payload hcmd,
   construct_sequence kind cmd seq payload hseq,
   construct_payload kind cmd seq payload (by omega)⟩

/-- Witness for C1 at kind 4, id 0x25, sequence 0, payload `[1, 2, 3]`. -/
theorem c1_witness :
    (4 ≤ 7 ∧ 0x25 < 65536 ∧ 0 < 65536 ∧ ([1, 2, 3] : List Nat).length ≤ 1450 ∧
      (∀ x ∈ ([1, 2, 3] : List Nat), x < 256)) ∧
    (TelloGram.packet_type (TelloGram.construct_package 4 0x25 0 [1, 2, 3]) = 4 ∧
     TelloGram.id (TelloGram.construct_package 4 0x25 0 [1, 2, 3]) = 0x25 ∧
     TelloGram.sequence (TelloGram.construct_package 4 0x25 0 [1, 2, 3]) = 0 ∧
     TelloGram.payload (TelloGram.construct_package 4 0x25 0 [1, 2, 3]) = [1, 2, 3]) :=
  ⟨⟨by decide, by decide, by decide, by decide, by decide⟩,
   c1_encode_decode_roundtrip 4 0x25 0 [1, 2, 3] (by decide) (by decide) (by decide)
     (by decide) (by decide)⟩

/-- C2: CRC16 wire byte order.  For every encoded gram of total length `L`,
`construct_package` computes the 16-bit checksum over bytes `0..L-2` and
writes the low 8 bits at offset `L-2` and the high 8 bits at offset `L-1`. -/
theorem c2_crc16_wire_bytes (pt cmd seq : Nat) (payload : List Nat) :
    (TelloGram.construct_package pt cmd seq payload).getD
        ((TelloGram.construct_package pt cmd seq payload).length - 2) 0 =
      calculate_crc16 ((TelloGram.construct_package pt cmd seq payload).take
        ((TelloGram.construct_package pt cmd seq payload).length - 2)) % 256 ∧
    (TelloGram.construct_package pt cmd seq payload).getD
        ((TelloGram.construct_package pt cmd seq payload).length - 1) 0 =
      calculate_crc16 ((TelloGram.construct_package pt cmd seq payload).take
        ((TelloGram.construct_package pt cmd seq payload).length - 2)) / 256 := by
  rw [construct_length]
  have e2 : 11 + payload.length - 2 = 9 + payload.length := by omega
  have e1 : 11 + payload.length - 1 = 10 + payload.length := by omega
  rw [e1, e2, construct_take_body, construct_getD_crc_lo, construct_getD_crc_hi]
  have hb := calculate_crc16_lt (TelloGram.body_bytes pt cmd seq payload)
  exact ⟨rfl, by omega⟩

/-- C3: Validity definition.  For every byte buffer, `is_valid` returns true
iff the recomputed 8-bit checksum over bytes 0..2 equals the stored byte at
offset 3, and the recomputed 16-bit checksum over bytes `0..size-2` equals
the stored trailing 16-bit value read low byte first from offsets `size-2`
and `size-1`. -/
theorem c3_is_valid_iff (b : List Nat) (hb : ∀ x ∈ b, x < 256) :
    TelloGram.is_valid b = true ↔
      (calculate_crc8 (b.take 3) = b.getD 3 0 ∧
       calculate_crc16 (b.take (TelloGram.size b - 2)) =
         b.getD (TelloGram.size b - 2) 0 + 256 * b.getD (TelloGram.size b - 1) 0) := by
  unfold TelloGram.is_valid TelloGram.crc16 TelloGram.crc8
  rw [Bool.and_eq_true, beq_iff_eq, beq_iff_eq]
  have hlo := getD_lt_256 b hb (TelloGram.size b - 2)
  rw [byte_lor _ _ hlo]

/-- Witness for C3 at the concrete 11-byte keepalive gram. -/
theorem c3_witness :
    (∀ x ∈ ([204, 88, 0, 233, 96, 37, 0, 0, 0, 156, 98] : List Nat), x < 256) ∧
    (TelloGram.is_valid [204, 88, 0, 233, 96, 37, 0, 0, 0, 156, 98] = true ↔
      (calculate_crc8 (([204, 88, 0, 233, 96, 37, 0, 0, 0, 156, 98] : List Nat).take 3) =
        ([204, 88, 0, 233, 96, 37, 0, 0, 0, 156, 98] : List Nat).getD 3 0 ∧
       calculate_crc16 (([204, 88, 0, 233, 96, 37, 0, 0, 0, 156, 98] : List Nat).take
          (TelloGram.size [204, 88, 0, 233, 96, 37, 0, 0, 0, 156, 98] - 2)) =
         ([204, 88, 0, 233, 96, 37, 0, 0, 0, 156, 98] : List Nat).getD
            (TelloGram.size [204, 88, 0, 233, 96, 37, 0, 0, 0, 156, 98] - 2) 0 +
          256 * ([204, 88, 0, 233, 96, 37, 0, 0, 0, 156, 98] : List Nat).getD
            (TelloGram.size [204, 88, 0, 233, 96, 37, 0, 0, 0, 156, 98] - 1) 0)) :=
  ⟨by decide, c3_is_valid_iff [204, 88, 0, 233, 96, 37, 0, 0, 0, 156, 98] (by decide)⟩

/-- C4 (code evaluation at the failing input): the receive loop performs no
minimum-length check and has no `TooShort` error.  With a previously received
valid keepalive gram still sitting in the 4096-byte receive array, a 2-byte
datagram (whose bytes coincide with the first two stale bytes) is fully
interpreted: the loop CRC-validates the stale gram and dispatches id 0x25
even though only 2 bytes were received. -/
theorem c4_short_datagram_still_dispatched :
    cmd_listen_step (TelloGram.construct_package 4 0x25 0 [] ++ List.replicate 4085 0) 2 =
      RecvAction.dispatch 0x25 := by decide

/-- C5 (code evaluation at the failing input): no `SizeMismatch` check
exists.  For an 11-byte datagram whose size field decodes to 8191, `is_valid`
reads `size - 2 = 8189` bytes and `payload` would read 8180 bytes from the
gram base — far past the 11 received bytes and past the 4096-byte receive
array itself. -/
theorem c5_size_field_overread :
    TelloGram.size [0xcc, 0xf8, 0xff, 0, 0, 0, 0, 0, 0, 0, 0] = 8191 ∧
    TelloGram.is_valid_crc16_read_len [0xcc, 0xf8, 0xff, 0, 0, 0, 0, 0, 0, 0, 0] = 8189 ∧
    TelloGram.payload_read_len [0xcc, 0xf8, 0xff, 0, 0, 0, 0, 0, 0, 0, 0] = 8180 ∧
    ([0xcc, 0xf8, 0xff, 0, 0, 0, 0, 0, 0, 0, 0] : List Nat).length = 11 ∧
    4096 < TelloGram.is_valid_crc16_read_len [0xcc, 0xf8, 0xff, 0, 0, 0, 0, 0, 0, 0, 0] := by
  decide

/-- C6: Flight-data field extraction.  For every 24-byte payload, decoding
returns height equal to the little-endian 16-bit value of bytes 0 and 1,
battery percentage equal to byte 12, and camera state equal to byte 20. -/
theorem c6_flight_data_fields (p : List Nat) (hlen : p.length = 24)
    (hb : ∀ x ∈ p, x < 256) :
    FlightData.fromBytes p =
      some ⟨p.getD 0 0 + 256 * p.getD 1 0, p.getD 12 0, p.getD 20 0⟩ := by
  unfold FlightData.fromBytes
  rw [if_pos hlen]
  have h0 := getD_lt_256 p hb 0
  rw [Nat.lor_comm, byte_lor _ _ h0]

/-- Witness for C6 at the concrete payload of the claim: byte 0 `0x64`,
byte 1 `0x00`, byte 12 `0x4b`, byte 20 `0x01` decode to height 100, battery
percentage 75, camera state 1. -/
theorem c6_witness :
    (([0x64, 0, 0, 0, 0, 0, 0, 0, 0, 0, 0, 0, 0x4b, 0, 0, 0, 0, 0, 0, 0, 0x01, 0, 0, 0] :
        List Nat).length = 24 ∧
     (∀ x ∈ ([0x64, 0, 0, 0, 0, 0, 0, 0, 0, 0, 0, 0, 0x4b, 0, 0, 0, 0, 0, 0, 0, 0x01,
        0, 0, 0] : List Nat), x < 256)) ∧
    FlightData.fromBytes
        [0x64, 0, 0, 0, 0, 0, 0, 0, 0, 0, 0, 0, 0x4b, 0, 0, 0, 0, 0, 0, 0, 0x01, 0, 0, 0] =
      some ⟨100, 75, 1⟩ :=
  ⟨⟨by decide, by decide⟩, by
    rw [c6_flight_data_fields
      [0x64, 0, 0, 0, 0, 0, 0, 0, 0, 0, 0, 0, 0x4b, 0, 0, 0, 0, 0, 0, 0, 0x01, 0, 0, 0]
      (by decide) (by decide)]
    rfl⟩

/-- C7 (code evaluation at the failing inputs): a payload of length 23 or 25
makes `FlightData::from` fail its `assert!(bytes.len() == 24)` — a panic
(modelled as `none`), not a returned `LengthMismatch` error value; nothing is
partially decoded. -/
theorem c7_flight_data_wrong_length_is_panic :
    FlightData.fromBytes (List.replicate 23 0) = none ∧
    FlightData.fromBytes (List.replicate 25 0) = none := by decide

/-- C8: End-to-end keepalive gram.  Encoding a zero-payload gram with kind 4,
id 0x25, sequence 0 produces a buffer of length exactly 11 that `is_valid`
accepts, whose `id` is 0x25 and whose payload is empty. -/
theorem c8_keepalive_end_to_end :
    (TelloGram.construct_package 4 0x25 0 []).length = 11 ∧
    TelloGram.is_valid (TelloGram.construct_package 4 0x25 0 []) = true ∧
    TelloGram.id (TelloGram.construct_package 4 0x25 0 []) = 0x25 ∧
    (TelloGram.payload (TelloGram.construct_package 4 0x25 0 [])).length = 0 := by
  decide

/-- C9 (counterexample): the first keepalive gram sent after connecting does
not carry a sequence one greater than the zeroth — both carry sequence 0, so
the claimed per-gram increment is false. -/
theorem c9_counterexample :
    ¬ (TelloGram.sequence (video_ping_gram 1) =
        TelloGram.sequence (video_ping_gram 0) + 1) := by decide

/-- C9 (amended): the keepalive loop never increments any sequence counter;
the gram sent on every iteration carries the fixed sequence value 0. -/
theorem c9_keepalive_sequence_constant (n : Nat) :
    TelloGram.sequence (video_ping_gram n) = 0 := rfl

/-- C10: Size-field truncation bound.  `construct_package` stores
`((11 + len) << 3)` truncated to 16 bits without any payload-length check, so
the decoded size is `(11 + len) % 8192`: it equals the buffer's real length
`11 + len` exactly when `11 + len ≤ 8191`, and silently disagrees with it for
every larger payload. -/
theorem c10_size_field_truncation (pt cmd seq : Nat) (payload : List Nat) :
    TelloGram.size (TelloGram.construct_package pt cmd seq payload) =
      (11 + payload.length) % 8192 ∧
    (TelloGram.construct_package pt cmd seq payload).length = 11 + payload.length ∧
    (TelloGram.size (TelloGram.construct_package pt cmd seq payload) =
        11 + payload.length ↔ 11 + payload.length ≤ 8191) := by
  refine ⟨construct_size pt cmd seq payload, construct_length pt cmd seq payload, ?_⟩
  rw [construct_size pt cmd seq payload]
  omega
